import Mathlib

/-!
Model of the troubleshoot-live support-bundle core.

Pure functional embedding of:
- resource loading (`LoadResourcesFromFile`, `parseJSONList` in pkg/bundle),
- the compact ConfigMap/Secret loaders (`LoadConfigMap`, `LoadSecret`),
- layout resolution (`configLayout`, `LoadLayoutFromConfig` in pkg/bundle/layout.go),
- pod log path resolution and timestamp back-filling (`LogsHandler` in pkg/proxy/logs.go).

Raw bytes of a bundle file are modelled by their parse outcomes under the
JSON and YAML deserializers (`FileContent`); untyped decoded documents are
modelled by the `JVal` value tree.  The virtual filesystem is a function
from path to optional content, mirroring the afero read-only filesystem.
-/

/-- Untyped JSON/YAML value, the model of the dynamic documents the bundle
loaders work on (the counterpart of map[string]any / unstructured data). -/
inductive JVal : Type where
  | null : JVal
  | bool (b : Bool) : JVal
  | num (n : Int) : JVal
  | str (s : String) : JVal
  | arr (elems : List JVal) : JVal
  | obj (fields : List (String × JVal)) : JVal

/-- One loaded resource record: the key-to-value document of a single object. -/
def Resource : Type := List (String × JVal)

/-- Key lookup in an object body, first binding wins (JSON object semantics). -/
def lookupField (fields : List (String × JVal)) (key : String) : Option JVal :=
  match fields with
  | [] => none
  | (k, v) :: rest => if k = key then some v else lookupField rest key

/-- Decoding a value that must be an object (one untyped resource item). -/
def asObj (v : JVal) : Except String Resource :=
  match v with
  | .obj fields => Except.ok fields
  | _ => Except.error "cannot unmarshal non-object into unstructured item"

/-- strings.HasSuffix, over the character lists of the two strings. -/
def hasSuffix (s sfx : String) : Bool :=
  List.isSuffixOf sfx.data s.data

/-- Reading of a string field the way unstructured NestedString does: the
empty string when the field is absent or not a string. -/
def getStringField (fields : List (String × JVal)) (key : String) : String :=
  match lookupField fields key with
  | some (.str s) => s
  | _ => ""

/-- strings.TrimSuffix of the List suffix, used when inferring the kind
of items of a typed list from the list kind. -/
def trimSuffixList (s : String) : String :=
  if hasSuffix s "List" then ⟨s.data.take (s.data.length - 4)⟩ else s

/-- Assignment of a string field of a record (map update: the existing
binding is replaced, a missing one is appended). -/
def setStringField (fields : List (String × JVal)) (key : String) (v : String) :
    List (String × JVal) :=
  match fields with
  | [] => [(key, JVal.str v)]
  | (k, w) :: rest =>
    if k = key then (k, JVal.str v) :: rest else (k, w) :: setStringField rest key v

/-- The kind/apiVersion inference decodeToList applies to each item of a
typed list: an item without a kind receives the kind inferred from the
list kind (when that inference is non-empty), and then an item without
an apiVersion receives the list apiVersion. -/
def inferListTypeMeta (listKind listAPIVersion : String) (item : Resource) : Resource :=
  let itemKind := trimSuffixList listKind
  if getStringField item "kind" = "" ∧ itemKind ≠ "" then
    let withKind := setStringField item "kind" itemKind
    if getStringField withKind "apiVersion" = "" then
      setStringField withKind "apiVersion" listAPIVersion
    else withKind
  else item

/-- Model of decoding one value through the unstructured JSON scheme into
an Unstructured: the value must be an object and, after the structural
decode, its kind must be a non-empty string, otherwise the scheme fails
with its missing-kind error.  Error strings here and below are shortened
stand-ins for the library's error text. -/
def decodeUnstructured (v : JVal) : Except String Resource :=
  match v with
  | .obj fields =>
    if getStringField fields "kind" = "" then
      Except.error "Object Kind is missing"
    else Except.ok fields
  | _ => Except.error "cannot unmarshal non-object into unstructured item"

/-- Model of decoding into a k8s UnstructuredList (the typed-list shape)
through the unstructured JSON scheme: the document must be an object and
its optional items field an array of objects (structural errors first);
each item missing type metadata inherits kind and apiVersion inferred
from the list; finally the list's own kind must be a non-empty string,
otherwise the scheme fails with its missing-kind error. -/
def decodeUList (v : JVal) : Except String (List Resource) :=
  match v with
  | .obj fields =>
    let listKind := getStringField fields "kind"
    let listAPIVersion := getStringField fields "apiVersion"
    match lookupField fields "items" with
    | some (.arr elems) =>
      match elems.mapM asObj with
      | Except.error e => Except.error e
      | Except.ok items =>
        if listKind = "" then Except.error "Object Kind is missing"
        else Except.ok (items.map (inferListTypeMeta listKind listAPIVersion))
    | some .null =>
      if listKind = "" then Except.error "Object Kind is missing" else Except.ok []
    | some _ => Except.error "items field is not an array"
    | none =>
      if listKind = "" then Except.error "Object Kind is missing" else Except.ok []
  | _ => Except.error "cannot unmarshal non-object into UnstructuredList"

/-- Model of decoding a bare ordered sequence into a slice of
Unstructured values: the document must be an array and every element
decodes through the unstructured JSON scheme, so an element without a
kind fails with the missing-kind error. -/
def decodeBareArray (v : JVal) : Except String (List Resource) :=
  match v with
  | .arr elems => elems.mapM decodeUnstructured
  | _ => Except.error "cannot unmarshal non-array into item slice"

/-- Model of decoding the third JSON shape: a single object whose items
field holds an ordered sequence of untyped documents; a missing field
yields the empty list (Go zero value). -/
def decodeItemsWrapper (v : JVal) : Except String (List Resource) :=
  match v with
  | .obj fields =>
    match lookupField fields "items" with
    | some (.arr elems) => elems.mapM asObj
    | some _ => Except.error "items field of wrapper is not an array"
    | none => Except.ok []
  | _ => Except.error "cannot unmarshal non-object into item wrapper"

/-- Raw file bytes, modelled by their parse outcome under encoding/json
and under the YAML reader respectively. -/
structure FileContent where
  asJson : Except String JVal
  asYaml : Except String JVal

/-- Errors of the resource loader. -/
inductive LoadError : Type where
  | readError (path : String) : LoadError
  | unsupported (msg : String) : LoadError
  | aggJSON (path : String) (errs : List String) : LoadError
  | aggYAML (path : String) (errs : List String) : LoadError
deriving DecidableEq

/-- Modelled from the spec: pkg/utils MaxErrorString is not part of the
sources; per the spec each underlying JSON parse error is truncated to
200 characters. -/
def maxErrorString (s : String) : String :=
  if s.length ≤ 200 then s else s.take 200

/-- Model of yaml.Unmarshal into an UnstructuredList: parse then decode. -/
def yamlUnmarshalUList (parsed : Except String JVal) : Except String (List Resource) :=
  match parsed with
  | Except.error e => Except.error e
  | Except.ok v => decodeUList v

/-- Model of yaml.Unmarshal into a slice of unstructured items. -/
def yamlUnmarshalItems (parsed : Except String JVal) : Except String (List Resource) :=
  match parsed with
  | Except.error e => Except.error e
  | Except.ok v => decodeBareArray v

/-- parseJSONList from pkg/bundle: three shapes are attempted in order;
the first success wins and when all fail the truncated errors are
aggregated with the path. A syntactically invalid document fails all
three attempts with the syntax error. -/
def parseJSONList (dataJson : Except String JVal) (path : String) :
    Except LoadError (List Resource) :=
  match dataJson with
  | Except.error pe =>
      Except.error (LoadError.aggJSON path
        [maxErrorString pe, maxErrorString pe, maxErrorString pe])
  | Except.ok v =>
    match decodeUList v with
    | Except.ok list => Except.ok list
    | Except.error e1 =>
      match decodeBareArray v with
      | Except.ok items => Except.ok items
      | Except.error e2 =>
        match decodeItemsWrapper v with
        | Except.ok items => Except.ok items
        | Except.error e3 =>
          Except.error (LoadError.aggJSON path
            [maxErrorString e1, maxErrorString e2, maxErrorString e3])

/-- LoadResourcesFromFile from pkg/bundle.  The YAML branch mirrors the
source exactly: after the first unmarshal fails with err, the second
unmarshal result iErr is computed but the guard tests err (which is
necessarily non-nil in this branch), so the aggregate error is returned
whether or not the bare-sequence unmarshal succeeded; errors.Join drops
the nil iErr from the aggregate. -/
def LoadResourcesFromFile (bundleFs : String → Option FileContent) (path : String) :
    Except LoadError (List Resource) :=
  match bundleFs path with
  | none => Except.error (LoadError.readError path)
  | some data =>
    if hasSuffix path ".json" then
      parseJSONList data.asJson path
    else if hasSuffix path ".yaml" || hasSuffix path ".yml" then
      match yamlUnmarshalUList data.asYaml with
      | Except.ok list => Except.ok list
      | Except.error e =>
        match yamlUnmarshalItems data.asYaml with
        | Except.ok _ => Except.error (LoadError.aggYAML path [e])
        | Except.error iErr => Except.error (LoadError.aggYAML path [e, iErr])
    else
      Except.error (LoadError.unsupported "unsupported data format")

/-- The compact record troubleshoot stores ConfigMaps and Secrets in:
name, namespace and an optional data mapping. -/
structure cmOrSecret where
  name : String
  nspace : String
  data : Option (List (String × String))
deriving DecidableEq

/-- Model of decoding a string-typed struct field: missing or null leaves
the Go zero value, a non-string value fails. -/
def decodeStringField (fields : List (String × JVal)) (key : String) :
    Except String String :=
  match lookupField fields key with
  | none => Except.ok ""
  | some (.str s) => Except.ok s
  | some .null => Except.ok ""
  | some _ => Except.error ("cannot unmarshal field " ++ key ++ " into string")

/-- Model of decoding the optional data mapping of the compact record. -/
def decodeDataField (fields : List (String × JVal)) :
    Except String (Option (List (String × String))) :=
  match lookupField fields "data" with
  | none => Except.ok none
  | some .null => Except.ok none
  | some (.obj kvs) =>
    (kvs.mapM (fun (kv : String × JVal) =>
      match kv.2 with
      | .str s => Except.ok (kv.1, s)
      | _ => (Except.error "cannot unmarshal data value into string" : Except String (String × String)))).map some
  | some _ => Except.error "cannot unmarshal data field into map"

/-- Model of unmarshalling a document into the compact cmOrSecret struct. -/
def decodeCmOrSecret (v : JVal) : Except String cmOrSecret :=
  match v with
  | .obj fields =>
    match decodeStringField fields "name" with
    | Except.error e => Except.error e
    | Except.ok n =>
      match decodeStringField fields "namespace" with
      | Except.error e => Except.error e
      | Except.ok ns =>
        match decodeDataField fields with
        | Except.error e => Except.error e
        | Except.ok d => Except.ok ⟨n, ns, d⟩
  | .null => Except.ok ⟨"", "", none⟩
  | _ => Except.error "cannot unmarshal document into cmOrSecret"

/-- Model of ToUnstructured on an ObjectMeta holding only name and
namespace: empty strings are omitted (omitempty) and the zero
creationTimestamp serializes as null. -/
def metadataObj (n ns : String) : JVal :=
  JVal.obj ((if n = "" then [] else [("name", JVal.str n)]) ++
    (if ns = "" then [] else [("namespace", JVal.str ns)]) ++
    [("creationTimestamp", JVal.null)])

/-- Model of ToUnstructured on the corev1.ConfigMap built by LoadConfigMap:
metadata plus the data mapping when it is present and non-empty. -/
def configMapFromCompact (r : cmOrSecret) : JVal :=
  JVal.obj ([("metadata", metadataObj r.name r.nspace)] ++
    (match r.data with
     | none => []
     | some [] => []
     | some kvs => [("data", JVal.obj (kvs.map (fun kv => (kv.1, JVal.str kv.2))))]))

/-- Model of ToUnstructured on the corev1.Secret built by LoadSecret: only
metadata is populated, the data mapping of the compact record is not used. -/
def secretFromCompact (r : cmOrSecret) : JVal :=
  JVal.obj [("metadata", metadataObj r.name r.nspace)]

/-- The shared decode step of LoadConfigMap and LoadSecret: YAML for
paths ending in .yaml or .yml, JSON for every other path. -/
def cmOrSecretParse (path : String) (c : FileContent) : Except String cmOrSecret :=
  match (if hasSuffix path ".yaml" || hasSuffix path ".yml" then c.asYaml else c.asJson) with
  | Except.error e => Except.error e
  | Except.ok v => decodeCmOrSecret v

/-- LoadConfigMap from pkg/bundle. -/
def LoadConfigMap (bundleFs : String → Option FileContent) (path : String) :
    Except String JVal :=
  match bundleFs path with
  | none => Except.error ("open " ++ path ++ ": file does not exist")
  | some c =>
    match cmOrSecretParse path c with
    | Except.error e => Except.error e
    | Except.ok r => Except.ok (configMapFromCompact r)

/-- LoadSecret from pkg/bundle. -/
def LoadSecret (bundleFs : String → Option FileContent) (path : String) :
    Except String JVal :=
  match bundleFs path with
  | none => Except.error ("open " ++ path ++ ": file does not exist")
  | some c =>
    match cmOrSecretParse path c with
    | Except.error e => Except.error e
    | Except.ok r => Except.ok (secretFromCompact r)

/-- A reference expression used to compare LoadConfigMap/LoadSecret
against: the same load with the decode unconditionally taken from the
JSON parse of the bytes. -/
def loadCompactViaJson (bundleFs : String → Option FileContent) (path : String)
    (build : cmOrSecret → JVal) : Except String JVal :=
  match bundleFs path with
  | none => Except.error ("open " ++ path ++ ": file does not exist")
  | some c =>
    match (match c.asJson with
           | Except.error e => Except.error e
           | Except.ok v => decodeCmOrSecret v) with
    | Except.error e => Except.error e
    | Except.ok r => Except.ok (build r)

/-- Default layout path constants from pkg/bundle/layout.go. -/
def DefaultClusterInfo : String := "k8s/cluster-info"

def DefaultClusterResources : String := "k8s/cluster-resources"

def DefaultPodLogs : String := "k8s/pod-logs"

def DefaultPreviousPodLogs : String := "k8s/previous-pod-logs"

def DefaultConfigMaps : String := "k8s/cluster-resources/configmaps"

def DefaultSecrets : String := "k8s/cluster-resources/secrets"

def DefaultSkipResources : List String :=
  ["custom-resource-definitions.json",
   "pod-disruption-budgets-info.json",
   "resources.json",
   "groups.json",
   "namespaces.json",
   "mutatingwebhookconfigurations.yaml",
   "validatingwebhookconfigurations.yaml"]

def DefaultSkipDirs : List String :=
  ["apiservices", "auth-cani-list", "pod-disruption-budgets"]

/-- PathsConfig of the configuration document. -/
structure PathsConfig where
  clusterInfo : String
  clusterResources : String
  podLogs : String
  previousPodLogs : String
  configMaps : String
  secrets : String
deriving DecidableEq

/-- SkipConfig of the configuration document. -/
structure SkipConfig where
  resources : List String
  dirs : List String
deriving DecidableEq

/-- LayoutConfig, the parsed configuration document. -/
structure LayoutConfig where
  paths : PathsConfig
  skip : SkipConfig
deriving DecidableEq

/-- A fully resolved Layout value (the Layout interface collapsed to its
eight accessor results). -/
structure LayoutV where
  clusterInfo : String
  clusterResources : String
  podLogs : String
  previousPodLogs : String
  configMaps : String
  secrets : String
  skipResources : List String
  skipDirs : List String
deriving DecidableEq

/-- defaultLayout: every accessor returns the built-in default. -/
def defaultLayout : LayoutV :=
  ⟨DefaultClusterInfo, DefaultClusterResources, DefaultPodLogs,
   DefaultPreviousPodLogs, DefaultConfigMaps, DefaultSecrets,
   DefaultSkipResources, DefaultSkipDirs⟩

/-- configLayout.ClusterInfo. -/
def configLayoutClusterInfo (cfg : LayoutConfig) : String :=
  if cfg.paths.clusterInfo ≠ "" then cfg.paths.clusterInfo else DefaultClusterInfo

/-- configLayout.ClusterResources. -/
def configLayoutClusterResources (cfg : LayoutConfig) : String :=
  if cfg.paths.clusterResources ≠ "" then cfg.paths.clusterResources else DefaultClusterResources

/-- configLayout.PodLogs. -/
def configLayoutPodLogs (cfg : LayoutConfig) : String :=
  if cfg.paths.podLogs ≠ "" then cfg.paths.podLogs else DefaultPodLogs

/-- configLayout.PreviousPodLogs. -/
def configLayoutPreviousPodLogs (cfg : LayoutConfig) : String :=
  if cfg.paths.previousPodLogs ≠ "" then cfg.paths.previousPodLogs else DefaultPreviousPodLogs

/-- configLayout.ConfigMaps. -/
def configLayoutConfigMaps (cfg : LayoutConfig) : String :=
  if cfg.paths.configMaps ≠ "" then cfg.paths.configMaps else DefaultConfigMaps

/-- configLayout.Secrets. -/
def configLayoutSecrets (cfg : LayoutConfig) : String :=
  if cfg.paths.secrets ≠ "" then cfg.paths.secrets else DefaultSecrets

/-- configLayout.SkipResources. -/
def configLayoutSkipResources (cfg : LayoutConfig) : List String :=
  if cfg.skip.resources.length > 0 then cfg.skip.resources else DefaultSkipResources

/-- configLayout.SkipDirs. -/
def configLayoutSkipDirs (cfg : LayoutConfig) : List String :=
  if cfg.skip.dirs.length > 0 then cfg.skip.dirs else DefaultSkipDirs

/-- configLayout: the Layout backed by a parsed configuration document. -/
def configLayout (cfg : LayoutConfig) : LayoutV :=
  ⟨configLayoutClusterInfo cfg, configLayoutClusterResources cfg,
   configLayoutPodLogs cfg, configLayoutPreviousPodLogs cfg,
   configLayoutConfigMaps cfg, configLayoutSecrets cfg,
   configLayoutSkipResources cfg, configLayoutSkipDirs cfg⟩

/-- LoadLayoutFromConfig from pkg/bundle/layout.go: an absent file yields
the default layout without error; present content is parsed (the YAML
parser is passed in, modelling the external yaml library) and a parse
failure propagates with the path in the message. -/
def LoadLayoutFromConfig (fsFiles : String → Option String)
    (parseConfig : String → Except String LayoutConfig) (configPath : String) :
    Except String LayoutV :=
  match fsFiles configPath with
  | none => Except.ok defaultLayout
  | some data =>
    match parseConfig data with
    | Except.error e =>
      Except.error ("failed to parse config file " ++ configPath ++ ": " ++ e)
    | Except.ok cfg => Except.ok (configLayout cfg)

/-- Container status fields read by the log handler. -/
structure ContainerStatus where
  name : String
  restartCount : Int
deriving DecidableEq

/-- The fields of a pod item inspected by the log handler after the
unstructured-to-Pod conversion. -/
structure PodItem where
  name : String
  uid : String
  annots : List (String × String)
  containerStatuses : List ContainerStatus
deriving DecidableEq

/-- Go map indexing on string maps: the empty string when absent. -/
def lookupStr (m : List (String × String)) (k : String) : String :=
  match m with
  | [] => ""
  | (a, b) :: rest => if a = k then b else lookupStr rest k

/-- The inner status loop of LogsHandler: the first container status whose
name equals the requested container sets the restart count; otherwise the
incoming value is kept. -/
def findRestartCount (statuses : List ContainerStatus) (container : String)
    (current : Int) : Int :=
  match statuses with
  | [] => current
  | cs :: rest =>
    if cs.name = container then cs.restartCount
    else findRestartCount rest container current

/-- The metadata extracted by the scan loop of LogsHandler. -/
structure PodMeta where
  podUID : String
  configHash : String
  restartCount : Int
deriving DecidableEq

/-- The scan loop of LogsHandler over the namespace pod list: every item
whose metadata name equals the requested pod overwrites podUID and the
config-hash annotation, and overwrites the restart count when it carries a
status entry for the requested container (items are assumed to convert
to pods, the handler aborts the request otherwise). -/
def extractPodMetadata (pod container : String) (items : List PodItem) : PodMeta :=
  items.foldl
    (fun acc item =>
      if item.name ≠ pod then acc
      else
        ⟨item.uid,
         lookupStr item.annots "kubernetes.io/config.hash",
         findRestartCount item.containerStatuses container acc.restartCount⟩)
    ⟨"", "", 0⟩

/-- filepath.Join drops empty path elements before joining. -/
def dropEmpty : List String → List String
  | [] => []
  | e :: rest => if e = "" then dropEmpty rest else e :: dropEmpty rest

/-- Slash-joining of the retained elements. -/
def joinNonEmpty : List String → String
  | [] => ""
  | [a] => a
  | a :: rest => a ++ "/" ++ joinNonEmpty rest

/-- Model of filepath.Join for already-clean relative path elements. -/
def joinPath (elems : List String) : String :=
  joinNonEmpty (dropEmpty elems)

/-- The ordered candidate log paths built by LogsHandler: two collector
base paths always come first; the current-log case appends the
cluster-info dump path and the two /var/log/pods style paths, the
previous-log case appends the restart-decrement path (only when the
restart count exceeds one) and the previous.log path. -/
def logCandidatePaths (layout : LayoutV) (ns pod container podUID configHash : String)
    (restartCount : Int) (previous : Bool) : List String :=
  let base := [
    joinPath [layout.podLogs, ns, pod ++ "-" ++ container ++ ".log"],
    joinPath [layout.clusterResources, "pods/logs", ns, pod, container ++ ".log"]]
  if !previous then
    base ++ [
      joinPath [layout.clusterInfo, "dump", ns, pod, "logs.txt"],
      joinPath [layout.podLogs, ns ++ "_" ++ pod ++ "_" ++ podUID, container,
        toString restartCount ++ ".log"],
      joinPath [layout.podLogs, ns ++ "_" ++ pod ++ "_" ++ podUID, container,
        configHash ++ ".log"]]
  else
    (if restartCount > 1 then
      base ++ [
        joinPath [layout.podLogs, ns ++ "_" ++ pod ++ "_" ++ podUID, container,
          toString (restartCount - 1) ++ ".log"]]
    else base) ++
    [joinPath [layout.previousPodLogs, ns, pod, "previous.log"]]

/-- bytes.Split on the line-feed byte; log bytes are modelled as character
lists.  The result is never empty: an empty input yields one empty line. -/
def splitOnNl : List Char → List (List Char)
  | [] => [[]]
  | c :: rest =>
    if c = '\n' then [] :: splitOnNl rest
    else
      match splitOnNl rest with
      | [] => [[c]]
      | l :: ls => (c :: l) :: ls

/-- bytes.Join with the line-feed byte. -/
def joinNl : List (List Char) → List Char
  | [] => []
  | [p] => p
  | p :: q :: qs => p ++ '\n' :: joinNl (q :: qs)

/-- Consume exactly n digit characters. -/
def matchDigits : Nat → List Char → Option (List Char)
  | 0, s => some s
  | _ + 1, [] => none
  | n + 1, c :: rest => if c.isDigit then matchDigits n rest else none

/-- Consume one expected character. -/
def matchChar (c : Char) : List Char → Option (List Char)
  | [] => none
  | x :: rest => if x = c then some rest else none

/-- The anchored timestamp pattern of LogsHandler: four digits, dash, two
digits, dash, two digits, letter T, three colon-separated digit pairs, an
optional dot with six digits, letter Z and a space. -/
def matchTsPat (s : List Char) : Bool :=
  (do
    let s ← matchDigits 4 s
    let s ← matchChar '-' s
    let s ← matchDigits 2 s
    let s ← matchChar '-' s
    let s ← matchDigits 2 s
    let s ← matchChar 'T' s
    let s ← matchDigits 2 s
    let s ← matchChar ':' s
    let s ← matchDigits 2 s
    let s ← matchChar ':' s
    let s ← matchDigits 2 s
    let s := match matchChar '.' s >>= matchDigits 6 with
      | some t => t
      | none => s
    let s ← matchChar 'Z' s
    matchChar ' ' s).isSome

/-- time.UnixMicro zero formatted as RFC3339 with nanosecond precision
(in UTC): the fixed literal back-fill timestamp. -/
def zeroTimeStr : List Char :=
  ['1', '9', '7', '0', '-', '0', '1', '-', '0', '1', 'T',
   '0', '0', ':', '0', '0', ':', '0', '0', 'Z']

/-- The timestamps block of LogsHandler: when the query flag is set, the
data is split on line feeds; if the first line already starts with the
timestamp pattern the data is returned unchanged, otherwise every line is
prefixed with the zero timestamp and a space and the lines are rejoined. -/
def normalizeTimestamps (tsFlag : Bool) (data : List Char) : List Char :=
  if tsFlag then
    let lines := splitOnNl data
    if matchTsPat (lines.headD []) then data
    else joinNl (lines.map (fun l => zeroTimeStr ++ ' ' :: l))
  else data

/-- Lookup of a top-level field of a loaded record. -/
def jLookup (v : JVal) (key : String) : Option JVal :=
  match v with
  | .obj fields => lookupField fields key
  | _ => none

/-- Byte-list comparison helper: does the first list start the second. -/
def isPrefixList : List Char → List Char → Bool
  | [], _ => true
  | _ :: _, [] => false
  | a :: as, b :: bs => a == b && isPrefixList as bs

/-- Byte-list comparison helper: does the first list occur inside the second. -/
def containsSub (needle : List Char) : List Char → Bool
  | [] => isPrefixList needle []
  | b :: rest => isPrefixList needle (b :: rest) || containsSub needle rest

/-- Fixture: a pod item named p with a UID, a config-hash annotation and a
restart count of two for container c. -/
def podItemA : PodItem := ⟨"p", "uid-a", [("kubernetes.io/config.hash", "ha")], [⟨"c", 2⟩]⟩

/-- Fixture: a second pod item also named p, with a different UID, no
annotations and no container statuses. -/
def podItemB : PodItem := ⟨"p", "uid-b", [], []⟩

/-- Fixture: a filesystem holding one file with an extension the resource
loader does not recognize. -/
def fsUnsupportedInput : String → Option FileContent :=
  fun p =>
    if p = "data.txt" then some ⟨Except.error "invalid document", Except.error "invalid document"⟩
    else none

/-- Fixture: a YAML file whose content is a bare sequence holding one
untyped document without type metadata; the typed-list unmarshal fails
structurally and the bare-sequence unmarshal fails with the missing-kind
error of the unstructured scheme.  As JSON the bytes do not parse. -/
def bareSeqYamlFile : FileContent :=
  ⟨Except.error "invalid character at start of document",
   Except.ok (JVal.arr [JVal.obj [("metadata", JVal.obj [("name", JVal.str "a")])]])⟩

/-- Fixture: a filesystem holding the bare-sequence YAML file. -/
def bareSeqFs : String → Option FileContent :=
  fun p => if p = "resources.yaml" then some bareSeqYamlFile else none

/-- Fixture: a YAML file whose content is a bare sequence holding one
document that does carry a kind, so the bare-sequence unmarshal
succeeds while the typed-list unmarshal still fails. -/
def typedSeqYamlFile : FileContent :=
  ⟨Except.error "invalid character at start of document",
   Except.ok (JVal.arr [JVal.obj [("kind", JVal.str "Pod"),
     ("metadata", JVal.obj [("name", JVal.str "a")])]])⟩

/-- Fixture: a filesystem holding the kind-bearing bare-sequence file. -/
def typedSeqFs : String → Option FileContent :=
  fun p => if p = "pods.yaml" then some typedSeqYamlFile else none

/-- Fixture: a configuration document overriding only clusterInfo. -/
def cfgOnlyClusterInfo : LayoutConfig :=
  ⟨⟨"custom/cluster-info", "", "", "", "", ""⟩, ⟨[], []⟩⟩

/-- Fixture: a compact secret file carrying a data mapping. -/
def secretFileWithData : FileContent :=
  ⟨Except.error "not json",
   Except.ok (JVal.obj [("name", JVal.str "s1"), ("namespace", JVal.str "ns1"),
     ("data", JVal.obj [("password", JVal.str "hunter2")])])⟩

/-- Fixture: the same compact secret file without the data mapping. -/
def secretFileNoData : FileContent :=
  ⟨Except.error "not json",
   Except.ok (JVal.obj [("name", JVal.str "s1"), ("namespace", JVal.str "ns1")])⟩

/-- Fixture: a filesystem serving the secret file with data. -/
def secretFsA : String → Option FileContent :=
  fun p => if p = "secrets/s1.yaml" then some secretFileWithData else none

/-- Fixture: a filesystem serving the secret file without data. -/
def secretFsB : String → Option FileContent :=
  fun p => if p = "secrets/s1.yaml" then some secretFileNoData else none

/-- Fixture: a compact configmap stored under a path with a .txt
extension, parseable as JSON only. -/
def cmJsonFs : String → Option FileContent :=
  fun p =>
    if p = "configmaps/cm.txt" then
      some ⟨Except.ok (JVal.obj [("name", JVal.str "cm1"), ("namespace", JVal.str "ns1")]),
        Except.error "not yaml"⟩
    else none

/-- A string of length zero is the empty string. -/
theorem string_eq_empty_of_length (s : String) (h : s.length = 0) : s = "" := by
  cases s with
  | mk ds =>
    cases ds with
    | nil => rfl
    | cons c cs => rw [String.length_mk] at h; simp at h

/-- Appending a non-empty string on the right yields a non-empty string. -/
theorem append_ne_empty_right (s t : String) (h : t ≠ "") : s ++ t ≠ "" := by
  intro he
  have hl := congrArg String.length he
  rw [String.length_append, String.length_empty] at hl
  exact h (string_eq_empty_of_length t (by omega))

/-- Appending to a non-empty string on the left yields a non-empty string. -/
theorem append_ne_empty_left (s t : String) (h : s ≠ "") : s ++ t ≠ "" := by
  intro he
  have hl := congrArg String.length he
  rw [String.length_append, String.length_empty] at hl
  exact h (string_eq_empty_of_length s (by omega))

/-- Evaluation of joinPath on three non-empty elements. -/
theorem joinPath_three (a b c : String) (ha : a ≠ "") (hb : b ≠ "") (hc : c ≠ "") :
    joinPath [a, b, c] = a ++ "/" ++ (b ++ "/" ++ c) := by
  rw [joinPath, dropEmpty, if_neg ha, dropEmpty, if_neg hb, dropEmpty, if_neg hc, dropEmpty]
  rfl

/-- Evaluation of joinPath on four non-empty elements. -/
theorem joinPath_four (a b c d : String) (ha : a ≠ "") (hb : b ≠ "") (hc : c ≠ "")
    (hd : d ≠ "") :
    joinPath [a, b, c, d] = a ++ "/" ++ (b ++ "/" ++ (c ++ "/" ++ d)) := by
  rw [joinPath, dropEmpty, if_neg ha, dropEmpty, if_neg hb, dropEmpty, if_neg hc,
    dropEmpty, if_neg hd, dropEmpty]
  rfl

/-- Evaluation of joinPath on five non-empty elements. -/
theorem joinPath_five (a b c d e : String) (ha : a ≠ "") (hb : b ≠ "") (hc : c ≠ "")
    (hd : d ≠ "") (he : e ≠ "") :
    joinPath [a, b, c, d, e] = a ++ "/" ++ (b ++ "/" ++ (c ++ "/" ++ (d ++ "/" ++ e))) := by
  rw [joinPath, dropEmpty, if_neg ha, dropEmpty, if_neg hb, dropEmpty, if_neg hc,
    dropEmpty, if_neg hd, dropEmpty, if_neg he, dropEmpty]
  rfl

/-- Splitting on line feeds always yields at least one piece. -/
theorem splitOnNl_ne_nil (l : List Char) : splitOnNl l ≠ [] := by
  cases l with
  | nil => simp [splitOnNl]
  | cons c rest =>
    rw [splitOnNl]
    split
    · simp
    · split <;> simp

/-- No piece produced by the split contains a line feed. -/
theorem splitOnNl_no_nl (l : List Char) : ∀ p ∈ splitOnNl l, '\n' ∉ p := by
  induction l with
  | nil =>
    intro p hp
    rw [splitOnNl] at hp
    simp at hp
    simp [hp]
  | cons c rest ih =>
    intro p hp
    rw [splitOnNl] at hp
    by_cases hc : c = '\n'
    · rw [if_pos hc] at hp
      rcases List.mem_cons.mp hp with h | h
      · simp [h]
      · exact ih p h
    · rw [if_neg hc] at hp
      rcases hsp : splitOnNl rest with _ | ⟨q, qs⟩
      · exact absurd hsp (splitOnNl_ne_nil rest)
      · rw [hsp] at hp
        rcases List.mem_cons.mp hp with h | h
        · subst h
          intro hmem
          rcases List.mem_cons.mp hmem with h1 | h1
          · exact hc h1.symm
          · exact ih q (by rw [hsp]; exact List.mem_cons_self q qs) h1
        · exact ih p (by rw [hsp]; exact List.mem_cons_of_mem q h)

/-- A line-feed-free byte list splits into exactly itself. -/
theorem splitOnNl_single (p : List Char) (h : '\n' ∉ p) : splitOnNl p = [p] := by
  induction p with
  | nil => rfl
  | cons c rest ih =>
    have hc : ¬ c = '\n' := by
      intro hcc
      exact h (by rw [hcc]; exact List.mem_cons_self _ _)
    have hr : '\n' ∉ rest := fun hm => h (List.mem_cons_of_mem c hm)
    rw [splitOnNl, if_neg hc, ih hr]

/-- Splitting a line-feed-free piece followed by a line feed peels off
that piece. -/
theorem splitOnNl_append_piece (p m : List Char) (h : '\n' ∉ p) :
    splitOnNl (p ++ '\n' :: m) = p :: splitOnNl m := by
  induction p with
  | nil => simp [splitOnNl]
  | cons c rest ih =>
    have hc : ¬ c = '\n' := by
      intro hcc
      exact h (by rw [hcc]; exact List.mem_cons_self _ _)
    have hr : '\n' ∉ rest := fun hm => h (List.mem_cons_of_mem c hm)
    rw [List.cons_append, splitOnNl, if_neg hc, ih hr]

/-- Splitting after joining recovers the pieces when none contains a
line feed. -/
theorem splitOnNl_joinNl (ls : List (List Char)) (hne : ls ≠ [])
    (h : ∀ p ∈ ls, '\n' ∉ p) : splitOnNl (joinNl ls) = ls := by
  induction ls with
  | nil => exact absurd rfl hne
  | cons p rest ih =>
    cases rest with
    | nil => exact splitOnNl_single p (h p (List.mem_cons_self _ _))
    | cons q qs =>
      rw [joinNl, splitOnNl_append_piece p _ (h p (List.mem_cons_self _ _)),
        ih (by simp) (fun x hx => h x (List.mem_cons_of_mem p hx))]

/-- Resolution of one string field: override when non-empty, default
otherwise. -/
theorem resolveStrPair (v d : String) :
    (v ≠ "" → (if v ≠ "" then v else d) = v) ∧
    (v = "" → (if v ≠ "" then v else d) = d) := by
  constructor <;> intro h <;> simp [h]

/-- Resolution of one list field: override when non-empty, default
otherwise. -/
theorem resolveListPair (v d : List String) :
    (v ≠ [] → (if v.length > 0 then v else d) = v) ∧
    (v = [] → (if v.length > 0 then v else d) = d) := by
  constructor <;> intro h <;> simp [h, List.length_pos]

/-- C1 (counterexample): the metadata scan is not first-match-wins.  With
two items both named p, the first carrying UID uid-a, hash ha and restart
count 2, the second carrying UID uid-b and neither annotations nor
statuses, the scan of the singleton list yields the first item's values
while the scan of the two-item list yields different values: the later
matching item changed the extracted values. -/
theorem extractPodMetadata_not_first_match :
    extractPodMetadata "p" "c" [podItemA] = ⟨"uid-a", "ha", 2⟩ ∧
    extractPodMetadata "p" "c" [podItemA, podItemB] ≠ ⟨"uid-a", "ha", 2⟩ := by decide

/-- C1 (amended): the metadata scan is last-match-wins.  Appending a
further item whose name equals the requested pod overwrites the extracted
podUID and config-hash annotation with that item's values, and overwrites
the restart count exactly when that item carries a container status entry
for the requested container, retaining the previously extracted value
otherwise. -/
theorem extractPodMetadata_last_match (pod container : String) (pre : List PodItem)
    (item : PodItem) (h : item.name = pod) :
    extractPodMetadata pod container (pre ++ [item]) =
      ⟨item.uid, lookupStr item.annots "kubernetes.io/config.hash",
       findRestartCount item.containerStatuses container
         (extractPodMetadata pod container pre).restartCount⟩ := by
  unfold extractPodMetadata
  rw [List.foldl_append]
  simp [h]

/-- C1 (witness): the amended theorem applied to the two concrete items;
the second matching item supplies the UID and the empty hash while the
restart count of the first item is retained. -/
theorem extractPodMetadata_last_match_witness :
    extractPodMetadata "p" "c" ([podItemA] ++ [podItemB]) = ⟨"uid-b", "", 2⟩ := by
  rw [extractPodMetadata_last_match "p" "c" [podItemA] podItemB rfl]
  decide

/-- C2 (code bug): a bare YAML sequence never loads.  On the claim's own
input, a bare sequence of one untyped document, the loader returns the
aggregate error because the bare-sequence unmarshal into Unstructured
values itself fails with the missing-kind error (first conjunct).  And
even on a bare sequence whose document carries a kind, where the
bare-sequence unmarshal does succeed with one record per document
(second conjunct), the loader still returns the aggregate error (third
conjunct), because the source tests the first unmarshal error instead of
the second one after the bare-sequence attempt. -/
theorem loadResources_yaml_bare_seq_bug :
    LoadResourcesFromFile bareSeqFs "resources.yaml" =
      Except.error (LoadError.aggYAML "resources.yaml"
        ["cannot unmarshal non-object into UnstructuredList", "Object Kind is missing"]) ∧
    yamlUnmarshalItems typedSeqYamlFile.asYaml =
      Except.ok [[("kind", JVal.str "Pod"), ("metadata", JVal.obj [("name", JVal.str "a")])]] ∧
    LoadResourcesFromFile typedSeqFs "pods.yaml" =
      Except.error (LoadError.aggYAML "pods.yaml"
        ["cannot unmarshal non-object into UnstructuredList"]) := ⟨rfl, rfl, rfl⟩

/-- C3 (counterexample): in the current-log case the fifth candidate is
keyed by the pod UID directory with the config hash as file name, not by
a config-hash directory with the restart count as file name. -/
theorem logCandidatePaths_fifth_not_hash_keyed :
    (logCandidatePaths defaultLayout "default" "web" "app" "u1" "h1" 2 false).getD 4 "" =
      "k8s/pod-logs/default_web_u1/app/h1.log" ∧
    (logCandidatePaths defaultLayout "default" "web" "app" "u1" "h1" 2 false).getD 4 "" ≠
      "k8s/pod-logs/default_web_h1/app/2.log" := by decide

/-- C3 (amended): in the current-log case the candidate list consists of
the two collector base paths, the cluster-info dump path, the UID-keyed
restart-count path, and fifth a path in the same UID-keyed directory
whose file name is the config hash. -/
theorem logCandidatePaths_current_case (layout : LayoutV) (ns pod container uid hash : String)
    (rc : Int) (h1 : layout.podLogs ≠ "") (h2 : layout.clusterResources ≠ "")
    (h3 : layout.clusterInfo ≠ "") (h4 : ns ≠ "") (h5 : pod ≠ "") (h6 : container ≠ "") :
    logCandidatePaths layout ns pod container uid hash rc false =
      [layout.podLogs ++ "/" ++ (ns ++ "/" ++ (pod ++ "-" ++ container ++ ".log")),
       layout.clusterResources ++ "/" ++
         ("pods/logs" ++ "/" ++ (ns ++ "/" ++ (pod ++ "/" ++ (container ++ ".log")))),
       layout.clusterInfo ++ "/" ++ ("dump" ++ "/" ++ (ns ++ "/" ++ (pod ++ "/" ++ "logs.txt"))),
       layout.podLogs ++ "/" ++
         ((ns ++ "_" ++ pod ++ "_" ++ uid) ++ "/" ++ (container ++ "/" ++ (toString rc ++ ".log"))),
       layout.podLogs ++ "/" ++
         ((ns ++ "_" ++ pod ++ "_" ++ uid) ++ "/" ++ (container ++ "/" ++ (hash ++ ".log")))] := by
  have hmid : ns ++ "_" ++ pod ++ "_" ++ uid ≠ "" :=
    append_ne_empty_left _ _ (append_ne_empty_right _ _ (by decide))
  simp only [logCandidatePaths, Bool.not_false, if_true]
  rw [joinPath_three _ _ _ h1 h4 (append_ne_empty_right _ _ (by decide)),
      joinPath_five _ _ _ _ _ h2 (by decide) h4 h5 (append_ne_empty_right _ _ (by decide)),
      joinPath_five _ _ _ _ _ h3 (by decide) h4 h5 (by decide),
      joinPath_four _ _ _ _ h1 hmid h6 (append_ne_empty_right _ _ (by decide)),
      joinPath_four _ _ _ _ h1 hmid h6 (append_ne_empty_right _ _ (by decide))]
  simp

/-- C3 (witness): the amended theorem instantiated at the default layout
for pod web, container app, UID u1, hash h1, restart count 2. -/
theorem logCandidatePaths_current_case_witness :
    logCandidatePaths defaultLayout "default" "web" "app" "u1" "h1" 2 false =
      ["k8s/pod-logs/default/web-app.log",
       "k8s/cluster-resources/pods/logs/default/web/app.log",
       "k8s/cluster-info/dump/default/web/logs.txt",
       "k8s/pod-logs/default_web_u1/app/2.log",
       "k8s/pod-logs/default_web_u1/app/h1.log"] := by
  rw [logCandidatePaths_current_case defaultLayout "default" "web" "app" "u1" "h1" 2
    (by decide) (by decide) (by decide) (by decide) (by decide) (by decide)]
  decide

/-- C4 (counterexample): with restart count 1 the previous-log candidate
list is not the single previous.log path; the two collector base paths
precede it. -/
theorem logCandidatePaths_previous_not_only_previous_log :
    logCandidatePaths defaultLayout "default" "web" "app" "u1" "h1" 1 true ≠
      ["k8s/previous-pod-logs/default/web/previous.log"] := by decide

/-- C4 (amended): in the previous-log case the candidate list consists of
the two collector base paths, then the UID-keyed restart-decrement path
included exactly when the restart count exceeds one, then the
previous.log path. -/
theorem logCandidatePaths_previous_case (layout : LayoutV) (ns pod container uid hash : String)
    (rc : Int) (h1 : layout.podLogs ≠ "") (h2 : layout.clusterResources ≠ "")
    (h7 : layout.previousPodLogs ≠ "") (h4 : ns ≠ "") (h5 : pod ≠ "") (h6 : container ≠ "") :
    logCandidatePaths layout ns pod container uid hash rc true =
      ([layout.podLogs ++ "/" ++ (ns ++ "/" ++ (pod ++ "-" ++ container ++ ".log")),
        layout.clusterResources ++ "/" ++
          ("pods/logs" ++ "/" ++ (ns ++ "/" ++ (pod ++ "/" ++ (container ++ ".log"))))] ++
       (if rc > 1 then
         [layout.podLogs ++ "/" ++
           ((ns ++ "_" ++ pod ++ "_" ++ uid) ++ "/" ++
             (container ++ "/" ++ (toString (rc - 1) ++ ".log")))]
       else []) ++
       [layout.previousPodLogs ++ "/" ++ (ns ++ "/" ++ (pod ++ "/" ++ "previous.log"))]) := by
  have hmid : ns ++ "_" ++ pod ++ "_" ++ uid ≠ "" :=
    append_ne_empty_left _ _ (append_ne_empty_right _ _ (by decide))
  by_cases hrc : rc > 1
  · simp only [logCandidatePaths, Bool.not_true, Bool.false_eq_true, if_false, if_pos hrc]
    rw [joinPath_three _ _ _ h1 h4 (append_ne_empty_right _ _ (by decide)),
        joinPath_five _ _ _ _ _ h2 (by decide) h4 h5 (append_ne_empty_right _ _ (by decide)),
        joinPath_four _ _ _ _ h1 hmid h6 (append_ne_empty_right _ _ (by decide)),
        joinPath_four _ _ _ _ h7 h4 h5 (by decide)]
  · simp only [logCandidatePaths, Bool.not_true, Bool.false_eq_true, if_false, if_neg hrc]
    rw [joinPath_three _ _ _ h1 h4 (append_ne_empty_right _ _ (by decide)),
        joinPath_five _ _ _ _ _ h2 (by decide) h4 h5 (append_ne_empty_right _ _ (by decide)),
        joinPath_four _ _ _ _ h7 h4 h5 (by decide)]
    simp

/-- C4 (witness): the amended theorem instantiated at the default layout
with restart count 1; the decrement candidate is omitted and the list is
the two base paths followed by previous.log. -/
theorem logCandidatePaths_previous_case_witness :
    logCandidatePaths defaultLayout "default" "web" "app" "u1" "h1" 1 true =
      ["k8s/pod-logs/default/web-app.log",
       "k8s/cluster-resources/pods/logs/default/web/app.log",
       "k8s/previous-pod-logs/default/web/previous.log"] := by
  rw [logCandidatePaths_previous_case defaultLayout "default" "web" "app" "u1" "h1" 1
    (by decide) (by decide) (by decide) (by decide) (by decide) (by decide)]
  decide

/-- C5 (counterexample): for the path data.txt the loader fails with the
unsupported-format error, but its message is the fixed string, which does
not contain the offending path. -/
theorem loadResources_unsupported_no_path :
    LoadResourcesFromFile fsUnsupportedInput "data.txt" =
      Except.error (LoadError.unsupported "unsupported data format") ∧
    containsSub "data.txt".data "unsupported data format".data = false := ⟨rfl, rfl⟩

/-- C5 (amended): for every readable path whose name ends in none of
.json, .yaml and .yml, the loader fails with the unsupported-format error
whose message is the path-independent fixed string. -/
theorem loadResources_unsupported_fixed_message (bundleFs : String → Option FileContent)
    (path : String) (c : FileContent) (hread : bundleFs path = some c)
    (hj : hasSuffix path ".json" = false) (hy : hasSuffix path ".yaml" = false)
    (hm : hasSuffix path ".yml" = false) :
    LoadResourcesFromFile bundleFs path =
      Except.error (LoadError.unsupported "unsupported data format") := by
  unfold LoadResourcesFromFile
  rw [hread]
  simp [hj, hy, hm]

/-- C5 (witness): the amended theorem applied to the data.txt fixture. -/
theorem loadResources_unsupported_fixed_message_witness :
    LoadResourcesFromFile fsUnsupportedInput "data.txt" =
      Except.error (LoadError.unsupported "unsupported data format") :=
  loadResources_unsupported_fixed_message fsUnsupportedInput "data.txt"
    ⟨Except.error "invalid document", Except.error "invalid document"⟩ rfl rfl rfl rfl

/-- C6: layout resolution is field-by-field.  For every parsed
configuration document each path field takes its configured value when
non-empty and the built-in default of that field otherwise, each skip
list takes its configured value when non-empty and the default list
otherwise, and the document overriding only clusterInfo resolves to the
custom clusterInfo with every other field at its built-in default. -/
theorem configLayout_fieldwise_resolution (cfg : LayoutConfig) :
    ((cfg.paths.clusterInfo ≠ "" → (configLayout cfg).clusterInfo = cfg.paths.clusterInfo) ∧
     (cfg.paths.clusterInfo = "" → (configLayout cfg).clusterInfo = DefaultClusterInfo)) ∧
    ((cfg.paths.clusterResources ≠ "" →
        (configLayout cfg).clusterResources = cfg.paths.clusterResources) ∧
     (cfg.paths.clusterResources = "" →
        (configLayout cfg).clusterResources = DefaultClusterResources)) ∧
    ((cfg.paths.podLogs ≠ "" → (configLayout cfg).podLogs = cfg.paths.podLogs) ∧
     (cfg.paths.podLogs = "" → (configLayout cfg).podLogs = DefaultPodLogs)) ∧
    ((cfg.paths.previousPodLogs ≠ "" →
        (configLayout cfg).previousPodLogs = cfg.paths.previousPodLogs) ∧
     (cfg.paths.previousPodLogs = "" →
        (configLayout cfg).previousPodLogs = DefaultPreviousPodLogs)) ∧
    ((cfg.paths.configMaps ≠ "" → (configLayout cfg).configMaps = cfg.paths.configMaps) ∧
     (cfg.paths.configMaps = "" → (configLayout cfg).configMaps = DefaultConfigMaps)) ∧
    ((cfg.paths.secrets ≠ "" → (configLayout cfg).secrets = cfg.paths.secrets) ∧
     (cfg.paths.secrets = "" → (configLayout cfg).secrets = DefaultSecrets)) ∧
    ((cfg.skip.resources ≠ [] → (configLayout cfg).skipResources = cfg.skip.resources) ∧
     (cfg.skip.resources = [] → (configLayout cfg).skipResources = DefaultSkipResources)) ∧
    ((cfg.skip.dirs ≠ [] → (configLayout cfg).skipDirs = cfg.skip.dirs) ∧
     (cfg.skip.dirs = [] → (configLayout cfg).skipDirs = DefaultSkipDirs)) ∧
    configLayout cfgOnlyClusterInfo =
      ⟨"custom/cluster-info", DefaultClusterResources, DefaultPodLogs, DefaultPreviousPodLogs,
       DefaultConfigMaps, DefaultSecrets, DefaultSkipResources, DefaultSkipDirs⟩ :=
  ⟨resolveStrPair _ _, resolveStrPair _ _, resolveStrPair _ _, resolveStrPair _ _,
   resolveStrPair _ _, resolveStrPair _ _, resolveListPair _ _, resolveListPair _ _, by decide⟩

/-- C6 (witness): the field-wise resolution theorem applied to the
document overriding only clusterInfo. -/
theorem configLayout_fieldwise_witness :
    (configLayout cfgOnlyClusterInfo).clusterInfo = "custom/cluster-info" ∧
    (configLayout cfgOnlyClusterInfo).podLogs = DefaultPodLogs ∧
    (configLayout cfgOnlyClusterInfo).skipDirs = DefaultSkipDirs := by
  have h := configLayout_fieldwise_resolution cfgOnlyClusterInfo
  exact ⟨h.1.1 (by decide), h.2.2.1.2 rfl, h.2.2.2.2.2.2.2.1.2 rfl⟩

/-- C7: when the configuration document is absent, layout resolution
succeeds and yields the layout whose every field is the built-in default,
with the six documented path literals and the documented skip lists. -/
theorem loadLayoutFromConfig_absent_defaults (fsFiles : String → Option String)
    (parseConfig : String → Except String LayoutConfig) (configPath : String)
    (h : fsFiles configPath = none) :
    LoadLayoutFromConfig fsFiles parseConfig configPath = Except.ok defaultLayout ∧
    defaultLayout.clusterInfo = "k8s/cluster-info" ∧
    defaultLayout.clusterResources = "k8s/cluster-resources" ∧
    defaultLayout.podLogs = "k8s/pod-logs" ∧
    defaultLayout.previousPodLogs = "k8s/previous-pod-logs" ∧
    defaultLayout.configMaps = "k8s/cluster-resources/configmaps" ∧
    defaultLayout.secrets = "k8s/cluster-resources/secrets" ∧
    defaultLayout.skipResources =
      ["custom-resource-definitions.json", "pod-disruption-budgets-info.json",
       "resources.json", "groups.json", "namespaces.json",
       "mutatingwebhookconfigurations.yaml", "validatingwebhookconfigurations.yaml"] ∧
    defaultLayout.skipDirs = ["apiservices", "auth-cani-list", "pod-disruption-budgets"] := by
  refine ⟨?_, rfl, rfl, rfl, rfl, rfl, rfl, rfl, rfl⟩
  unfold LoadLayoutFromConfig
  rw [h]

/-- C7 (witness): the theorem applied to an empty filesystem. -/
theorem loadLayoutFromConfig_absent_defaults_witness :
    LoadLayoutFromConfig (fun _ => none) (fun _ => Except.error "unused") "bundle/config.yaml" =
      Except.ok defaultLayout :=
  (loadLayoutFromConfig_absent_defaults (fun _ => none) (fun _ => Except.error "unused")
    "bundle/config.yaml" rfl).1

/-- C8: timestamp normalization with the enabled flag set is idempotent;
applying it twice yields the output of applying it once, because the
back-filled first line starts with the zero timestamp and a space and
therefore matches the timestamp pattern on the second pass. -/
theorem normalizeTimestamps_idempotent (data : List Char) :
    normalizeTimestamps true (normalizeTimestamps true data) =
      normalizeTimestamps true data := by
  cases hm : matchTsPat ((splitOnNl data).headD [])
  · obtain ⟨a, t, hL⟩ : ∃ a t, splitOnNl data = a :: t := by
      rcases hsp : splitOnNl data with _ | ⟨a, t⟩
      · exact absurd hsp (splitOnNl_ne_nil data)
      · exact ⟨a, t, rfl⟩
    have hone : normalizeTimestamps true data =
        joinNl ((splitOnNl data).map (fun l => zeroTimeStr ++ ' ' :: l)) := by
      simp only [normalizeTimestamps]
      rw [hm]
      simp
    have hpieces : ∀ x ∈ (splitOnNl data).map (fun l => zeroTimeStr ++ ' ' :: l),
        '\n' ∉ x := by
      intro x hx
      rcases List.mem_map.mp hx with ⟨l, hl, rfl⟩
      intro hmem
      rcases List.mem_append.mp hmem with h | h
      · revert h; decide
      · rcases List.mem_cons.mp h with h | h
        · exact absurd h (by decide)
        · exact splitOnNl_no_nl data l hl h
    have hsplit :
        splitOnNl (joinNl ((splitOnNl data).map (fun l => zeroTimeStr ++ ' ' :: l))) =
          (splitOnNl data).map (fun l => zeroTimeStr ++ ' ' :: l) := by
      apply splitOnNl_joinNl
      · rw [hL]; simp
      · exact hpieces
    have hhead : (((splitOnNl data).map (fun l => zeroTimeStr ++ ' ' :: l)).headD []) =
        zeroTimeStr ++ ' ' :: a := by rw [hL]; rfl
    have hmatch2 : matchTsPat (zeroTimeStr ++ ' ' :: a) = true := rfl
    rw [hone]
    simp only [normalizeTimestamps]
    rw [hsplit, hhead, hmatch2]
    simp
  · have hone : normalizeTimestamps true data = data := by
      simp only [normalizeTimestamps]
      rw [hm]
      simp
    rw [hone]
    exact hone

/-- C9: LoadSecret is independent of the data field of the compact
record.  For every two readable input files whose decoded compact records
agree on name and namespace (differing at most in the optional data
mapping) LoadSecret returns equal records, and every record it returns
carries no top-level data field. -/
theorem loadSecret_independent_of_data
    (fs1 fs2 : String → Option FileContent) (p1 p2 : String) (c1 c2 : FileContent)
    (r1 r2 : cmOrSecret)
    (h1 : fs1 p1 = some c1) (h2 : fs2 p2 = some c2)
    (hd1 : cmOrSecretParse p1 c1 = Except.ok r1)
    (hd2 : cmOrSecretParse p2 c2 = Except.ok r2)
    (hn : r1.name = r2.name) (hns : r1.nspace = r2.nspace) :
    LoadSecret fs1 p1 = LoadSecret fs2 p2 ∧
    (∀ u, LoadSecret fs1 p1 = Except.ok u → jLookup u "data" = none) := by
  have e1 : LoadSecret fs1 p1 = Except.ok (secretFromCompact r1) := by
    unfold LoadSecret
    rw [h1]
    simp [hd1]
  have e2 : LoadSecret fs2 p2 = Except.ok (secretFromCompact r2) := by
    unfold LoadSecret
    rw [h2]
    simp [hd2]
  constructor
  · rw [e1, e2]
    simp [secretFromCompact, metadataObj, hn, hns]
  · intro u hu
    rw [e1] at hu
    obtain rfl : secretFromCompact r1 = u := by injection hu
    simp [jLookup, secretFromCompact, lookupField]

/-- C9 (witness): the theorem applied to two concrete secret files, one
carrying a data mapping, the other not; LoadSecret yields the same
record for both. -/
theorem loadSecret_independent_of_data_witness :
    LoadSecret secretFsA "secrets/s1.yaml" = LoadSecret secretFsB "secrets/s1.yaml" :=
  (loadSecret_independent_of_data secretFsA secretFsB "secrets/s1.yaml" "secrets/s1.yaml"
    secretFileWithData secretFileNoData ⟨"s1", "ns1", some [("password", "hunter2")]⟩
    ⟨"s1", "ns1", none⟩ rfl rfl rfl rfl rfl rfl).1

/-- C10: for every path ending in neither .yaml nor .yml, LoadConfigMap
and LoadSecret decode the file content as JSON: each call equals the
load that reads the file and decodes its JSON parse, so it fails exactly
when the read or that JSON decode fails and never with an
unsupported-format error. -/
theorem loadCompact_json_dispatch (bundleFs : String → Option FileContent) (path : String)
    (hy : hasSuffix path ".yaml" = false) (hm : hasSuffix path ".yml" = false) :
    LoadConfigMap bundleFs path = loadCompactViaJson bundleFs path configMapFromCompact ∧
    LoadSecret bundleFs path = loadCompactViaJson bundleFs path secretFromCompact := by
  constructor
  · unfold LoadConfigMap loadCompactViaJson cmOrSecretParse
    simp [hy, hm]
  · unfold LoadSecret loadCompactViaJson cmOrSecretParse
    simp [hy, hm]

/-- C10 (witness): the theorem applied to a configmap file stored under a
.txt path holding JSON content. -/
theorem loadCompact_json_dispatch_witness :
    LoadConfigMap cmJsonFs "configmaps/cm.txt" =
      loadCompactViaJson cmJsonFs "configmaps/cm.txt" configMapFromCompact ∧
    LoadSecret cmJsonFs "configmaps/cm.txt" =
      loadCompactViaJson cmJsonFs "configmaps/cm.txt" secretFromCompact :=
  loadCompact_json_dispatch cmJsonFs "configmaps/cm.txt" rfl rfl
